import Mathlib

/-!
Verification of the GTI repository's natural-language specification against
its source.  The Python modules are shallowly embedded: dataframes become
explicit structures over exact rationals, in-place pandas mutation becomes
explicit state passing (the returned dataframe is the caller's object after
the call), exceptions become `Except`, and `None`/`NaN` become `Option`.
-/

namespace GTI

/-! ## Shared numeric helpers (pandas/numpy semantics)

`mean`, sample variance and sample covariance follow pandas defaults
(`ddof = 1`).  `DataFrame.round(n)` uses numpy's round-half-to-even. -/

/-- Arithmetic mean of a column, `Series.mean`.  pandas yields NaN on an
empty column; here the junk value `0 / 0 = 0` is produced, and every use
below guards the empty case explicitly. -/
def mean (xs : List ℚ) : ℚ := xs.sum / xs.length

/-- Sample variance with `ddof = 1`, as in `Series.std() ** 2` /
`DataFrame.cov` diagonals.  For `xs.length ≤ 1` pandas yields NaN; the
junk value here is again `0`, and users guard that case. -/
def sampleVar (xs : List ℚ) : ℚ :=
  (xs.map (fun x => (x - mean xs) ^ 2)).sum / ((xs.length : ℚ) - 1)

/-- Sample covariance with `ddof = 1`, as in `DataFrame.cov` off-diagonals. -/
def sampleCov (xs ys : List ℚ) : ℚ :=
  ((xs.zip ys).map (fun p => (p.1 - mean xs) * (p.2 - mean ys))).sum
    / ((xs.length : ℚ) - 1)

/-- numpy's round-half-to-even on a rational, to an integer. -/
def roundHalfEven (x : ℚ) : ℤ :=
  let f := ⌊x⌋
  let r := x - f
  if r < 1 / 2 then f
  else if 1 / 2 < r then f + 1
  else if 2 ∣ f then f else f + 1

/-- `round(decimals = n)` of pandas/numpy: round-half-to-even at the n-th
decimal place. -/
def roundDec (n : ℕ) (x : ℚ) : ℚ := (roundHalfEven (x * 10 ^ n) : ℚ) / 10 ^ n

/-! ## broker/ib.py — duration string of get_historical_daily_bar (C9)

`days_difference = (end_date - start_date).days`; the method then builds
`duration_str` and passes it to `get_historical_data`.  Python's `//` is
floor division; both operands are positive in the branch that uses it, so
`Int` division agrees. -/

/-- The `duration_str` computed by `IB.get_historical_daily_bar` from
`days_difference` (ib.py lines 50-55). -/
def duration_str (days_difference : ℤ) : String :=
  if days_difference > 365 then
    toString ((days_difference + 364) / 365) ++ " Y"
  else
    toString days_difference ++ " D"

/-! ## data/loader.py — DataLoader (C10)

`load_from_s3` first fetches the object (modelled as an `Except` argument:
the SDK call may raise, and any such exception propagates), then dispatches
on `file_format` with no `else` branch, so an unsupported format returns
Python `None`.  `load_from_local` dispatches the same way; the reads
themselves may raise, so they are `Except` arguments too. -/

/-- `DataLoader.load_from_local` (loader.py lines 15-19): `readCsv` and
`readParquet` stand for the outcomes `pd.read_csv(file_path)` /
`pd.read_parquet(file_path)` would have; neither is evaluated unless its
branch is taken.  The result `Except.ok none` is Python returning `None`. -/
def load_from_local {α : Type} (readCsv readParquet : Except String α)
    (file_format : String) : Except String (Option α) :=
  if file_format = "csv" then readCsv.map some
  else if file_format = "parquet" then readParquet.map some
  else .ok none

/-- `DataLoader.load_from_s3` (loader.py lines 8-13): `getObject` is the
outcome of `self.s3_client.get_object(...)`, evaluated before the format
dispatch; its exception propagates.  The readers consume the fetched body. -/
def load_from_s3 {α β : Type} (getObject : Except String β)
    (readCsv readParquet : β → Except String α)
    (file_format : String) : Except String (Option α) := do
  let obj ← getObject
  if file_format = "csv" then (readCsv obj).map some
  else if file_format = "parquet" then (readParquet obj).map some
  else pure none

/-! ## data/db.py — Redshift connection lifetime (C7)

The `Redshift` wrapper holds one psycopg2 connection, opened in
`__init__`.  `run_query` and `write_query` close it after the query when
`use_connection_pooling` is false; `read_query` delegates to `run_query`.
The state tracks whether the connection is open. -/

/-- Connection state of a `Redshift` object (db.py lines 10-13). -/
structure RedshiftState where
  connOpen : Bool
  pooling : Bool
deriving DecidableEq, Repr

/-- `Redshift.__init__(use_connection_pooling)`: opens the connection.
The Python default for the argument is `True`. -/
def Redshift_init (use_connection_pooling : Bool) : RedshiftState :=
  { connOpen := true, pooling := use_connection_pooling }

/-- Connection effect of `Redshift.run_query` (db.py lines 15-23): after
fetching, the connection is closed iff pooling is off. -/
def run_query (s : RedshiftState) : RedshiftState :=
  if ¬ s.pooling then { s with connOpen := false } else s

/-- Connection effect of `Redshift.write_query` (db.py lines 28-34). -/
def write_query (s : RedshiftState) : RedshiftState :=
  if ¬ s.pooling then { s with connOpen := false } else s

/-- `Redshift.read_query` just calls `run_query` (db.py line 26). -/
def read_query (s : RedshiftState) : RedshiftState := run_query s

/-- A query method invoked on the wrapper. -/
inductive QueryOp where
  | run
  | write
  | read
deriving DecidableEq, Repr

/-- Apply one query method to the connection state. -/
def applyOp (s : RedshiftState) : QueryOp → RedshiftState
  | .run => run_query s
  | .write => write_query s
  | .read => read_query s

/-- Apply a whole call sequence, left to right. -/
def applyOps (s : RedshiftState) : List QueryOp → RedshiftState
  | [] => s
  | op :: ops => applyOps (applyOp s op) ops

/-! ## auth_handler.py — ConfigLoader.get_config (C3)

`os.getenv(f"{section.upper()}_{key.upper()}") or
self.config.get(section, key, fallback=None)`.  Python's `or` returns its
right operand when the left is falsy, and the empty string is falsy, so an
environment variable set to `""` falls through to the config file. -/

/-- Python `or` on optional strings: `None` and `""` are falsy. -/
def pyOrStr (a b : Option String) : Option String :=
  match a with
  | none => b
  | some s => if s = "" then b else some s

/-- Python's `str.upper()` on the ASCII identifiers used for config
sections and keys: uppercase each character.  Same function as
`String.toUpper`, written over the character list so it reduces
structurally. -/
def pyUpper (s : String) : String := ⟨s.data.map Char.toUpper⟩

/-- The environment-variable name probed by `get_config`:
`f"{section.upper()}_{key.upper()}"`.  `sect` stands for the Python
parameter `section` (a Lean keyword). -/
def envVarName (sect key : String) : String :=
  pyUpper sect ++ "_" ++ pyUpper key

/-- `ConfigLoader.get_config` (auth_handler.py lines 20-21).  `env` is
`os.getenv`; `cfg` is `self.config.get` with `fallback=None` (so `none`
when the section or key is absent from the file). -/
def get_config (env : String → Option String)
    (cfg : String → String → Option String)
    (sect key : String) : Option String :=
  pyOrStr (env (envVarName sect key)) (cfg sect key)

/-! ## analytics/data_analytics.py — the dataframe object and __init__ (C1)

A pandas dataframe is modelled as its index (name and values) plus its
columns in order.  Cell values carry their Python type: string, numeric or
Timestamp.  In-place pandas mutation (`df[c] = ...`,
`df.set_index(c, inplace=True)`) is explicit state passing: the function's
result is the caller's dataframe object after the call. -/

/-- A pandas cell value: Python string, numeric, or Timestamp
(year/month/day). -/
inductive PdVal where
  | s (v : String)
  | n (v : ℚ)
  | t (year month day : ℕ)
deriving DecidableEq, Repr

/-- `pd.to_datetime` on one cell.  A `"YYYY-MM-DD"` string parses to a
Timestamp; a Timestamp is unchanged.  pandas reads a bare number as an
epoch offset; the claims only exercise string- or Timestamp-typed date
columns, so a numeric cell is modelled as the epoch date. -/
def to_datetime (v : PdVal) : PdVal :=
  match v with
  | .s str =>
    match str.splitOn "-" with
    | [ys, ms, ds] => .t (ys.toNat?.getD 0) (ms.toNat?.getD 0) (ds.toNat?.getD 0)
    | _ => .s str
  | .n _ => .t 1970 1 1
  | .t y m d => .t y m d

/-- A pandas dataframe: optional index name, index values, and the data
columns in order (`df.columns` lists exactly the data columns, not the
index). -/
structure PandasDF where
  indexName : Option String
  indexVals : List PdVal
  columns : List (String × List PdVal)
deriving DecidableEq, Repr

/-- `DataAnalytics.__init__(df)` (data_analytics.py lines 12-21): takes
`date_column = df.columns[0]`, overwrites that column with
`pd.to_datetime(...)`, then `df.set_index(date_column, inplace=True)`.
All three steps act on the caller's object; the result is that object's
state after the call, which is also what `self.df` aliases.  On a
dataframe with no columns Python raises IndexError at `df.columns[0]`;
that case is returned unchanged here and excluded by hypothesis where it
matters. -/
def DataAnalytics_init (df : PandasDF) : PandasDF :=
  match df.columns with
  | [] => df
  | (dateCol, vals) :: rest =>
    { indexName := some dateCol
      indexVals := vals.map to_datetime
      columns := rest }

/-! ## broker/ib.py — get_historical_data error handling (C2)

The whole `try` body — the SDK call `reqHistoricalData`, `util.df`, the
column selection and renaming, `set_index` — is modelled as an `Except`
computation; the `except` clause prints and returns `pd.DataFrame()`. -/

/-- One bar as returned by `reqHistoricalData` via `util.df`: the fields
the code keeps plus the extra columns (`average`, `barCount`) that the
selection drops.  `opn` is the Python field `open` (a Lean keyword). -/
structure Bar where
  date : ℤ
  opn : ℚ
  high : ℚ
  low : ℚ
  close : ℚ
  volume : ℚ
  average : ℚ
  barCount : ℤ
deriving DecidableEq, Repr

/-- A row of the resulting OHLCV frame after column selection/renaming. -/
structure HistRow where
  opn : ℚ
  high : ℚ
  low : ℚ
  close : ℚ
  volume : ℚ
deriving DecidableEq, Repr

/-- The dataframe `get_historical_data` returns: indexed by `Date` after
`set_index('Date')`. -/
structure HistDF where
  index : List ℤ
  rows : List HistRow
deriving DecidableEq, Repr

/-- The fallback `pd.DataFrame()` of the `except` branch. -/
def emptyHistDF : HistDF := { index := [], rows := [] }

/-- `util.df` of ib_insync returns `None` on an empty bar list, a
dataframe otherwise. -/
def util_df (bars : List Bar) : Option (List Bar) :=
  if bars.isEmpty then none else some bars

/-- Column selection, renaming and `set_index('Date')` of
ib.py lines 38-40. -/
def mkHistDF (bars : List Bar) : HistDF :=
  { index := bars.map (·.date)
    rows := bars.map (fun b => ⟨b.opn, b.high, b.low, b.close, b.volume⟩) }

/-- The `try` body of `get_historical_data` (ib.py lines 29-40): the SDK
fetch may raise (`fetch` is its outcome); on an empty result `util.df`
gives `None` and the subsequent column selection raises TypeError, also
caught. -/
def get_historical_data_tryBody (fetch : Except String (List Bar)) :
    Except String HistDF := do
  let bars ← fetch
  match util_df bars with
  | none => Except.error "TypeError: NoneType is not subscriptable"
  | some rows => Except.ok (mkHistDF rows)

/-- `IB.get_historical_data` (ib.py lines 21-43): any exception from the
`try` body is swallowed (printed) and an empty dataframe returned; the
method's type shows no exception escapes. -/
def get_historical_data (fetch : Except String (List Bar)) : HistDF :=
  match get_historical_data_tryBody fetch with
  | .ok df => df
  | .error _ => emptyHistDF

/-! ## analytics/data_analytics.py — numeric transforms (C4, C5, C6, C8)

The transforms read one or two numeric columns of `self.df`; a column is a
`List ℚ`.  Where pandas float arithmetic yields NaN (sample statistics of
fewer than two points, a zero standard deviation under `0 / 0`), the model
returns `none`. -/

/-- `DataAnalytics.get_pct_weights`, one row before the final rounding
(data_analytics.py lines 35-40): `row_sum` is the sum over the original
columns (captured before the `row_sum` column is added), and each
column's percentage is `value / row_sum * 100`. -/
def row_pcts (row : List ℚ) : List ℚ :=
  row.map (fun v => v / row.sum * 100)

/-- `DataAnalytics.get_pct_weights`, one row including the final
`.round(2)` (data_analytics.py line 41). -/
def get_pct_weights (row : List ℚ) : List ℚ :=
  (row_pcts row).map (roundDec 2)

/-- `DataAnalytics.correlation_coefficient(col1, col2)` without a window
(data_analytics.py line 195): pandas Pearson correlation
`cov / (std1 * std2)` on the two columns (same dataframe, so same
length).  With fewer than two rows the sample statistics are NaN, and
with a zero variance the quotient is `0 / 0 = NaN`: those cases are
`none`. -/
noncomputable def correlation_coefficient (xs ys : List ℚ) : Option ℝ :=
  if xs.length ≤ 1 ∨ sampleVar xs = 0 ∨ sampleVar ys = 0 then none
  else
    some ((sampleCov xs ys : ℝ)
      / (Real.sqrt (sampleVar xs) * Real.sqrt (sampleVar ys)))

/-- `DataAnalytics.z_score(col, value)` without a window
(data_analytics.py lines 258-261): `(value - mean) / std` with the sample
standard deviation.  With fewer than two rows the std is NaN; with a
constant column the std is `0` and the quotient at `value = mean` is
`0 / 0 = NaN`: those cases are `none` (a nonzero numerator over a zero
std would be ±inf in pandas, likewise not a finite value). -/
noncomputable def z_score (xs : List ℚ) (value : ℚ) : Option ℝ :=
  if xs.length ≤ 1 ∨ sampleVar xs = 0 then none
  else some ((value - mean xs : ℚ) / Real.sqrt (sampleVar xs))

/-- One entry of `Series.pct_change(periods = p)`:
`xs[i] / xs[i - p] - 1`, `none` (NaN) where `i - p` is out of range.  A
zero previous value makes the float quotient non-finite (NaN when the
current value is also zero, as in every use below), modelled `none`. -/
def pct_change_entry (xs : List ℚ) (p : ℤ) (i : ℕ) : Option ℚ :=
  let j : ℤ := (i : ℤ) - p
  if 0 ≤ j ∧ j < (xs.length : ℤ) then
    let prev := xs.getD j.toNat 0
    if prev = 0 then none else some (xs.getD i 0 / prev - 1)
  else none

/-- `Series.pct_change(periods = p)` over a whole column.  The source
passes `fill_method='ffill'`, which only touches NaN cells of the input;
the modelled columns have none. -/
def pct_change (xs : List ℚ) (p : ℤ) : List (Option ℚ) :=
  (List.range xs.length).map (pct_change_entry xs p)

/-- `DataAnalytics.perc_change(horizon, keep_only_perc_change=True)`
(data_analytics.py lines 301-321): the retained values of the
`perc_change` column — `pct_change(periods = horizon - 1)` on the first
column, rounded to 4 decimals, NaN rows dropped by `.dropna()`. -/
def perc_change (col : List ℚ) (horizon : ℤ) : List ℚ :=
  ((pct_change col (horizon - 1)).map (Option.map (roundDec 4))).filterMap id

/-! ## Claim C2 — get_historical_data swallows fetch errors -/

/-- Claim C2: every exception raised during the historical-data fetch is
swallowed (printed) and `IB.get_historical_data` returns the empty
dataframe; since the embedding of the method is total with result type
`HistDF` (not `Except`), no exception propagates to the caller. -/
theorem get_historical_data_error_swallowed (e : String) :
    get_historical_data (.error e) = emptyHistDF := rfl

/-! ## Claim C9 — duration string of get_historical_daily_bar -/

/-- Claim C9: for `days_difference = d`, `get_historical_daily_bar`
requests a duration of exactly `d` days when `d ≤ 365`, and otherwise
exactly `(d + 364) // 365` years, which equals `⌈d / 365⌉` — the integer
division always rounds up. -/
theorem duration_str_spec (d : ℤ) :
    (d ≤ 365 → duration_str d = toString d ++ " D") ∧
    (365 < d → duration_str d = toString ((d + 364) / 365) ++ " Y" ∧
      (d + 364) / 365 = ⌈(d : ℚ) / 365⌉) := by
  constructor
  · intro hle
    rw [duration_str, if_neg (by omega)]
  · intro hgt
    refine ⟨by rw [duration_str, if_pos hgt], ?_⟩
    symm
    rw [Int.ceil_eq_iff]
    have h1 : 365 * ((d + 364) / 365) ≤ d + 364 := by omega
    have h2 : d + 364 < 365 * ((d + 364) / 365) + 365 := by omega
    constructor
    · rw [lt_div_iff₀ (by norm_num : (0 : ℚ) < 365)]
      have h3 : ((d + 364) / 365 - 1) * 365 < d := by omega
      exact_mod_cast h3
    · rw [div_le_iff₀ (by norm_num : (0 : ℚ) < 365)]
      have h4 : d ≤ ((d + 364) / 365) * 365 := by omega
      exact_mod_cast h4

/-- Witness for C9 at concrete inputs: 10 days apart gives `"10 D"`;
730 days apart gives 2 years, the round-up of `730 / 365`. -/
theorem duration_str_spec_witness :
    duration_str 10 = toString (10 : ℤ) ++ " D" ∧
    (duration_str 730 = toString (((730 : ℤ) + 364) / 365) ++ " Y" ∧
      ((730 : ℤ) + 364) / 365 = ⌈((730 : ℤ) : ℚ) / 365⌉) :=
  ⟨(duration_str_spec 10).1 (by norm_num),
    (duration_str_spec 730).2 (by norm_num)⟩

/-! ## Claim C10 — unsupported formats are silently ignored -/

/-- Claim C10: for every `file_format` other than `"csv"` and
`"parquet"`, `load_from_local` returns Python `None` without raising, and
`load_from_s3` does the same once the object fetch itself has succeeded
(the fetch runs before the format dispatch, for every format). -/
theorem load_unsupported_format_none {α β : Type}
    (readCsvL readParquetL : Except String α) (obj : β)
    (readCsv readParquet : β → Except String α) (file_format : String)
    (h1 : file_format ≠ "csv") (h2 : file_format ≠ "parquet") :
    load_from_local readCsvL readParquetL file_format = .ok none ∧
    load_from_s3 (.ok obj) readCsv readParquet file_format = .ok none := by
  constructor
  · rw [load_from_local, if_neg h1, if_neg h2]
  · show (if file_format = "csv" then (readCsv obj).map some
      else if file_format = "parquet" then (readParquet obj).map some
      else pure none) = .ok none
    rw [if_neg h1, if_neg h2]
    rfl

/-- Witness for C10: format `"json"` yields `None` from both loaders. -/
theorem load_unsupported_format_none_witness :
    load_from_local (Except.ok (1 : ℕ)) (Except.ok 2) "json" = .ok none ∧
    load_from_s3 (Except.ok (0 : ℕ)) (fun _ => Except.ok (1 : ℕ))
      (fun _ => Except.ok 2) "json" = .ok none :=
  load_unsupported_format_none _ _ 0 _ _ "json" (by decide) (by decide)

/-! ## Claim C7 — Redshift connection lifetime -/

/-- With pooling on, every query method leaves the state unchanged. -/
lemma applyOp_of_pooling (s : RedshiftState) (hp : s.pooling = true)
    (op : QueryOp) : applyOp s op = s := by
  cases op <;> simp [applyOp, run_query, write_query, read_query, hp]

/-- With pooling on, a whole call sequence leaves the state unchanged. -/
lemma applyOps_of_pooling (ops : List QueryOp) :
    ∀ s : RedshiftState, s.pooling = true → applyOps s ops = s := by
  induction ops with
  | nil => intro s _; rfl
  | cons op ops ih =>
    intro s hs
    show applyOps (applyOp s op) ops = s
    rw [applyOp_of_pooling s hs op]
    exact ih s hs

/-- Counterexample to C7 as stated: a `Redshift` object constructed with
`use_connection_pooling=False` has its connection closed by the very
first `run_query`, before the object is discarded. -/
theorem run_query_closes_connection_counterexample :
    (applyOps (Redshift_init false) [QueryOp.run]).connOpen = false := by
  decide

/-- Claim C7 (amended): for a `Redshift` object constructed with
`use_connection_pooling=True` — the constructor's default — the
connection stays open across every sequence of `run_query`,
`read_query` and `write_query` calls. -/
theorem connection_open_with_pooling (ops : List QueryOp) :
    (applyOps (Redshift_init true) ops).connOpen = true := by
  rw [applyOps_of_pooling ops (Redshift_init true) rfl]
  rfl

/-! ## Claim C3 — ConfigLoader.get_config env override -/

/-- A concrete `os.getenv` with `REDSHIFT_HOST` set to the empty string. -/
def envEmptyHost : String → Option String :=
  fun n => if n = "REDSHIFT_HOST" then some "" else none

/-- A concrete config file carrying `[Redshift] host = filehost`. -/
def cfgFileHost : String → String → Option String :=
  fun s k => if s = "Redshift" ∧ k = "host" then some "filehost" else none

/-- Counterexample to C3 as stated: with the environment variable
`REDSHIFT_HOST` set (to the empty string), `get_config` does not return
its value — Python's `or` treats `""` as falsy, so the config-file value
is returned instead. -/
theorem get_config_empty_env_counterexample :
    envEmptyHost "REDSHIFT_HOST" = some "" ∧
    get_config envEmptyHost cfgFileHost "Redshift" "host" = some "filehost" ∧
    get_config envEmptyHost cfgFileHost "Redshift" "host" ≠ some "" := by
  refine ⟨rfl, ?_, ?_⟩ <;> decide

/-- Claim C3 (amended): `get_config` returns the value of the environment
variable `<SECTION>_<KEY>` (upper-cased) when that variable is set to a
non-empty string; otherwise — unset, or set to the empty string, which
Python's `or` treats as falsy — it returns the per-service config-file
value, hence `None` when that too is absent. -/
theorem get_config_resolution (env : String → Option String)
    (cfg : String → String → Option String) (sect key : String) :
    (∀ v, env (envVarName sect key) = some v → v ≠ "" →
      get_config env cfg sect key = some v) ∧
    (env (envVarName sect key) = none →
      get_config env cfg sect key = cfg sect key) ∧
    (env (envVarName sect key) = some "" →
      get_config env cfg sect key = cfg sect key) := by
  refine ⟨fun v hv hne => ?_, fun hn => ?_, fun he => ?_⟩
  · simp [get_config, pyOrStr, hv, hne]
  · simp [get_config, pyOrStr, hn]
  · simp [get_config, pyOrStr, he]

/-- A concrete `os.getenv` with `IB_HOST` set to a non-empty string. -/
def envIbHost : String → Option String :=
  fun n => if n = "IB_HOST" then some "127.0.0.1" else none

/-- Witness for C3 (amended) at concrete inputs: a non-empty env value
wins; with no env value the config file (here empty) decides, giving
`none`. -/
theorem get_config_resolution_witness :
    get_config envIbHost (fun _ _ => none) "IB" "host" = some "127.0.0.1" ∧
    get_config envIbHost (fun _ _ => none) "IB" "port" = none :=
  ⟨(get_config_resolution envIbHost (fun _ _ => none) "IB" "host").1
      "127.0.0.1" (by decide) (by decide),
    (get_config_resolution envIbHost (fun _ _ => none) "IB" "port").2.1
      (by decide)⟩

/-! ## Claim C1 — the constructor mutates the caller's dataframe -/

/-- The dataframe of the module's own `__main__` example
(data_analytics.py lines 358-363), truncated to two rows. -/
def exampleDF : PandasDF :=
  { indexName := none
    indexVals := [.n 0, .n 1]
    columns := [("date_time", [.s "2023-04-01", .s "2023-04-02"]),
                ("value1", [.n 22, .n 4]),
                ("value2", [.n 43, .n 12])] }

/-- Counterexample to C1 as stated: constructing `DataAnalytics` on the
module's own example dataframe changes the caller's object — the
`date_time` column is converted and moved into the index in place, so
the dataframe is not left unchanged. -/
theorem init_mutates_counterexample :
    DataAnalytics_init exampleDF ≠ exampleDF := by decide

/-- Claim C1 (amended): `DataAnalytics.__init__` mutates the caller's
dataframe whenever it has at least one column (with none, Python raises
IndexError instead): `pd.to_datetime` assignment and
`set_index(..., inplace=True)` act on the passed object, which loses its
first column to the index and so never equals its prior state. -/
theorem init_mutates (df : PandasDF) (h : df.columns ≠ []) :
    DataAnalytics_init df ≠ df := by
  intro heq
  cases hc : df.columns with
  | nil => exact h hc
  | cons c rest =>
    obtain ⟨nm, vals⟩ := c
    have hinit : (DataAnalytics_init df).columns = rest := by
      unfold DataAnalytics_init
      rw [hc]
    rw [heq, hc] at hinit
    exact List.cons_ne_self _ rest hinit

/-- Witness for C1 (amended) at the module's example dataframe. -/
theorem init_mutates_witness : DataAnalytics_init exampleDF ≠ exampleDF :=
  init_mutates exampleDF (by decide)

/-! ## Claim C8 — percentage weights of a row sum to 100 -/

/-- Dividing every element by a common `s` and scaling by 100 scales the
sum the same way. -/
lemma sum_map_div_mul (l : List ℚ) (s : ℚ) :
    (l.map (fun v => v / s * 100)).sum = l.sum / s * 100 := by
  induction l with
  | nil => simp
  | cons x xs ih =>
    simp only [List.map_cons, List.sum_cons, ih]
    ring

/-- Claim C8: for every row whose values sum to a nonzero total, the
percentage values `get_pct_weights` computes for that row — the
`value / row_sum * 100` columns, before the final `.round(2)` — sum to
exactly 100. -/
theorem row_pcts_sum_100 (row : List ℚ) (h : row.sum ≠ 0) :
    (row_pcts row).sum = 100 := by
  rw [row_pcts, sum_map_div_mul, div_self h, one_mul]

/-- Witness for C8 at the docstring's sample row `[22, 43]`. -/
theorem row_pcts_sum_100_witness : (row_pcts [22, 43]).sum = 100 :=
  row_pcts_sum_100 [22, 43] (by norm_num)

/-! ## Claim C5 — pct_change of a constant series is 0 on retained rows -/

/-- `List.getD` on a replicated list yields the repeated element at every
in-range position. -/
lemma getD_replicate (c d : ℚ) (n i : ℕ) (h : i < n) :
    (List.replicate n c).getD i d = c := by
  induction n generalizing i with
  | zero => omega
  | succ m ih =>
    cases i with
    | zero => rfl
    | succ j => exact ih j (by omega)

/-- Rounding an exact zero gives zero. -/
lemma roundDec_zero (n : ℕ) : roundDec n 0 = 0 := by
  norm_num [roundDec, roundHalfEven]

/-- Claim C5: on a constant column, every value retained by
`perc_change` (any horizon, after rounding and `.dropna()`) is 0: each
computed change is `c / c - 1 = 0` when `c ≠ 0`, and when `c = 0` the
float changes are NaN and no row is retained at all. -/
theorem perc_change_const (c : ℚ) (n : ℕ) (horizon : ℤ) (v : ℚ)
    (hv : v ∈ perc_change (List.replicate n c) horizon) : v = 0 := by
  rw [perc_change, List.mem_filterMap] at hv
  obtain ⟨o, ho, hov⟩ := hv
  rw [List.mem_map] at ho
  obtain ⟨e, he, heo⟩ := ho
  rw [pct_change, List.mem_map] at he
  obtain ⟨i, hi, hie⟩ := he
  rw [List.mem_range, List.length_replicate] at hi
  rw [id] at hov
  subst hov
  subst hie
  rw [Option.map_eq_some'] at heo
  obtain ⟨w, hw, hwv⟩ := heo
  subst hwv
  simp only [pct_change_entry, List.length_replicate] at hw
  split at hw
  · next hrange =>
    split at hw
    · exact absurd hw (by simp)
    · next hprev =>
      rw [getD_replicate c 0 n (((i : ℤ) - (horizon - 1)).toNat) (by omega)]
        at hw hprev
      rw [getD_replicate c 0 n i hi] at hw
      obtain hw' := Option.some.inj hw
      rw [div_self hprev, sub_self] at hw'
      rw [← hw', roundDec_zero]
  · exact absurd hw (by simp)

/-- Witness for C5: a constant column of three 5s with horizon 2 retains
a first row, and its change is 0. -/
theorem perc_change_const_witness :
    (perc_change (List.replicate 3 (5 : ℚ)) 2).headD 1 = 0 := by
  cases hl : perc_change (List.replicate 3 (5 : ℚ)) 2 with
  | nil => exact absurd hl (by decide)
  | cons x xs =>
    show x = 0
    exact perc_change_const 5 3 2 x (by rw [hl]; exact List.mem_cons_self x xs)

/-! ## Claim C4 — correlation of two identical series -/

/-- Zipping a list with itself and mapping is mapping over the diagonal. -/
lemma zip_self_map {α β : Type} (f : α × α → β) (l : List α) :
    (l.zip l).map f = l.map (fun x => f (x, x)) := by
  induction l with
  | nil => rfl
  | cons x xs ih => simp [List.zip_cons_cons, ih]

/-- The sample covariance of a column with itself is its sample
variance. -/
lemma sampleCov_self (xs : List ℚ) : sampleCov xs xs = sampleVar xs := by
  rw [sampleCov, sampleVar, zip_self_map]
  congr 1
  congr 1
  apply List.map_congr_left
  intro x _
  ring

/-- The sample variance is nonnegative when the column has at least two
entries. -/
lemma sampleVar_nonneg (xs : List ℚ) (h2 : 2 ≤ xs.length) :
    0 ≤ sampleVar xs := by
  rw [sampleVar]
  apply div_nonneg
  · apply List.sum_nonneg
    intro y hy
    rw [List.mem_map] at hy
    obtain ⟨x, _, hx⟩ := hy
    rw [← hx]
    positivity
  · have : (2 : ℚ) ≤ xs.length := by exact_mod_cast h2
    linarith

/-- Counterexample to C4 as stated: on a constant column paired with
itself the standard deviations are 0, pandas' `0 / 0` is NaN, and the
correlation is not 1. -/
theorem correlation_constant_counterexample :
    correlation_coefficient [1, 1] [1, 1] ≠ some 1 := by
  rw [correlation_coefficient,
    if_pos (Or.inr (Or.inl (by norm_num [sampleVar, mean])))]
  simp

/-- Claim C4 (amended): for two identical series that are not constant
(sample variance nonzero, hence at least two rows), the correlation
coefficient without a window is exactly 1. -/
theorem correlation_identical (xs : List ℚ) (h2 : 2 ≤ xs.length)
    (hvar : sampleVar xs ≠ 0) :
    correlation_coefficient xs xs = some 1 := by
  rw [correlation_coefficient, if_neg (by push_neg; exact ⟨by omega, hvar, hvar⟩)]
  have hnn : (0 : ℝ) ≤ (sampleVar xs : ℝ) := by
    exact_mod_cast sampleVar_nonneg xs h2
  rw [sampleCov_self, Real.mul_self_sqrt hnn,
    div_self (by exact_mod_cast hvar)]

/-- Witness for C4 (amended) on the non-constant column `[1, 2]`. -/
theorem correlation_identical_witness :
    correlation_coefficient [1, 2] [1, 2] = some 1 :=
  correlation_identical [1, 2] (by decide) (by norm_num [sampleVar, mean])

/-! ## Claim C6 — z-score of the mean -/

/-- Counterexample to C6 as stated: on a constant column the standard
deviation is 0, `(mean - mean) / 0` is float NaN, and the z-score of the
mean is not 0. -/
theorem z_score_constant_counterexample :
    z_score [5, 5] (mean [5, 5]) ≠ some 0 := by
  rw [z_score, if_pos (Or.inr (by norm_num [sampleVar, mean]))]
  simp

/-- Claim C6 (amended): for every column with at least two rows and
nonzero sample variance, the z-score (without a window) of the column's
mean is 0. -/
theorem z_score_at_mean (xs : List ℚ) (h2 : 2 ≤ xs.length)
    (hvar : sampleVar xs ≠ 0) :
    z_score xs (mean xs) = some 0 := by
  rw [z_score, if_neg (by push_neg; exact ⟨by omega, hvar⟩)]
  norm_num

/-- Witness for C6 (amended) on the column `[1, 2]`. -/
theorem z_score_at_mean_witness : z_score [1, 2] (mean [1, 2]) = some 0 :=
  z_score_at_mean [1, 2] (by decide) (by norm_num [sampleVar, mean])

end GTI
